import Mathlib

/-!
Verification of the otii-tcp-client Arc device handle
(`src/otii_tcp_client/arc.py` and `src/otii_tcp_client/toggle.py`).

The client is a thin RPC wrapper: each public method of `Arc` builds a data
dictionary containing the device id, wraps it in a request envelope, sends it
through the connection's synchronous `send_and_receive`, raises
`Otii_Exception(response)` when the response's `type` field equals `"error"`,
and otherwise extracts the documented field(s) from the response's `data`
payload.

The embedding models Python values with `PyVal`, Python exceptions raised by
the method bodies with `PyExc`, and a method body as a pure function of the
(borrowed) connection, returning the result together with the list of
`send_and_receive` invocations it performed.
-/

set_option autoImplicit false

/-- A Python value as it appears in this client: strings, ints, floats
(modelled as rationals; the client performs no float arithmetic other than a
timeout sum), booleans, `None`, lists and string-keyed dictionaries. -/
inductive PyVal where
  | str : String → PyVal
  | int : Int → PyVal
  | float : Rat → PyVal
  | bool : Bool → PyVal
  | none : PyVal
  | list : List PyVal → PyVal
  | dict : List (String × PyVal) → PyVal

/-- Exceptions the method bodies can raise: `Otii_Exception(response)`
(`otii_exception.py`, raised with the full response), and the Python built-in
`KeyError` / `AttributeError` / `TypeError` from dictionary subscripts and
attribute access. -/
inductive PyExc where
  | otii : PyVal → PyExc
  | keyError : String → PyExc
  | attributeError : String → PyExc
  | typeError : PyExc

/-- A Python computation that either returns a value or raises. -/
abbrev Py (α : Type) : Type := Except PyExc α

/-- First-match lookup in a string-keyed association list (Python dict keys in
this client are unique, so this is ordinary dict lookup). -/
def lookupKey : List (String × PyVal) → String → Option PyVal
  | [], _ => Option.none
  | (k, v) :: rest, key => if k = key then some v else lookupKey rest key

/-- Python subscript `v[key]`: a value for dicts holding the key, `KeyError`
for dicts lacking it, `TypeError` for non-dicts. -/
def PyVal.subscript : PyVal → String → Py PyVal
  | PyVal.dict d, key =>
      match lookupKey d key with
      | some v => Except.ok v
      | Option.none => Except.error (PyExc.keyError key)
  | _, _ => Except.error PyExc.typeError

/-- Python `v.get(key, None)`: the value or `None` for dicts, and
`AttributeError` for values without a `get` method. -/
def PyVal.getDefault : PyVal → String → Py PyVal
  | PyVal.dict d, key =>
      match lookupKey d key with
      | some v => Except.ok v
      | Option.none => Except.ok PyVal.none
  | _, _ => Except.error (PyExc.attributeError "get")

/-- Python `v == s` for a string literal `s`: true exactly when `v` is the
equal string. -/
def PyVal.eqStr : PyVal → String → Bool
  | PyVal.str s, t => s == t
  | _, _ => false

/-- `toggle.py` lines 4-9: the `Toggle` enumeration. -/
inductive Toggle where
  | ON
  | OFF
  deriving DecidableEq

/-- `toggle.py` lines 8-9: the wire value of each `Toggle` member. -/
def Toggle.value : Toggle → Bool
  | Toggle.ON => true
  | Toggle.OFF => false

/-- `arc.py` lines 836-857: the `Channel` enumeration. -/
inductive Channel where
  | MAIN_CURRENT
  | MAIN_VOLTAGE
  | MAIN_ENERGY
  | ADC_CURRENT
  | ADC_VOLTAGE
  | ADC_ENERGY
  | SENSE_MINUS_VOLTAGE
  | SENSE_PLUS_VOLTAGE
  | VBUS
  | TEMPERATURE
  | UART_LOGS
  | GPI_1
  | GPI_2
  deriving DecidableEq

/-- `arc.py` lines 844-856: the short string code of each `Channel` member. -/
def Channel.value : Channel → String
  | Channel.MAIN_CURRENT => "mc"
  | Channel.MAIN_VOLTAGE => "mv"
  | Channel.MAIN_ENERGY => "me"
  | Channel.ADC_CURRENT => "ac"
  | Channel.ADC_VOLTAGE => "av"
  | Channel.ADC_ENERGY => "ae"
  | Channel.SENSE_MINUS_VOLTAGE => "sn"
  | Channel.SENSE_PLUS_VOLTAGE => "sp"
  | Channel.VBUS => "vb"
  | Channel.TEMPERATURE => "tp"
  | Channel.UART_LOGS => "rx"
  | Channel.GPI_1 => "i1"
  | Channel.GPI_2 => "i2"

/-- The borrowed connection collaborator: its `send_and_receive` is modelled
as a pure function from the request and the timeout argument (`Option.none`
is the default-timeout call `send_and_receive(request)`) to the response. -/
abbrev Conn : Type := PyVal → Option Rat → PyVal

/-- One `send_and_receive` invocation: the request sent and the timeout
argument passed. -/
structure CallRec where
  request : PyVal
  timeout : Option Rat

/-- The request envelope every method builds, e.g. `arc.py` line 36. -/
def mkRequest (cmd : String) (data : List (String × PyVal)) : PyVal :=
  PyVal.dict
    [("type", PyVal.str "request"), ("cmd", PyVal.str cmd),
     ("data", PyVal.dict data)]

/-- The response inspection every method performs (e.g. `arc.py` lines 38-39):
subscript the `type` field, raise `Otii_Exception(response)` when it equals
`"error"`, and otherwise run the method's extraction of the return value. -/
def dispatch (ext : PyVal → Py PyVal) (response : PyVal) : Py PyVal :=
  match response.subscript "type" with
  | Except.error e => Except.error e
  | Except.ok t =>
      if t.eqStr "error" then Except.error (PyExc.otii response)
      else ext response

/-- Send a request, inspect the response, extract the result; also record the
single `send_and_receive` invocation performed. -/
def sendCheck (conn : Conn) (request : PyVal) (timeout : Option Rat)
    (ext : PyVal → Py PyVal) : Py PyVal × List CallRec :=
  (dispatch ext (conn request timeout), [⟨request, timeout⟩])

/-- Extraction for pure-command methods: Python methods without a `return`
statement return `None`. -/
def extNone : PyVal → Py PyVal :=
  fun _ => Except.ok PyVal.none

/-- Extraction `response["data"][key]` used by the single-field getters. -/
def extDataKey (key : String) (response : PyVal) : Py PyVal :=
  match response.subscript "data" with
  | Except.error e => Except.error e
  | Except.ok d => d.subscript key

/-- Extraction `response["data"]` used by `get_version` (`arc.py` line 449). -/
def extData (response : PyVal) : Py PyVal :=
  response.subscript "data"

/-- Extraction `response["data"].get(key, None)` used by `get_property`
(`arc.py` line 806). -/
def extDataGet (key : String) (response : PyVal) : Py PyVal :=
  match response.subscript "data" with
  | Except.error e => Except.error e
  | Except.ok d => d.getDefault key

/-- `arc.py` lines 8-29: the Arc device handle and its fields. -/
structure Arc where
  type : PyVal
  id : PyVal
  name : PyVal
  connection : Conn

/-- `arc.py` lines 19-29: `Arc.__init__`, reading the `type`, `device_id` and
`name` keys of the device dictionary (a missing key is a `KeyError`) and
storing the supplied connection. -/
def Arc.init (device_dict : PyVal) (connection : Conn) : Py Arc :=
  match device_dict.subscript "type" with
  | Except.error e => Except.error e
  | Except.ok t =>
      match device_dict.subscript "device_id" with
      | Except.error e => Except.error e
      | Except.ok i =>
          match device_dict.subscript "name" with
          | Except.error e => Except.error e
          | Except.ok n => Except.ok ⟨t, i, n, connection⟩

/-- `arc.py` lines 31-39. -/
def Arc.calibrate (self : Arc) : Py PyVal × List CallRec :=
  sendCheck self.connection
    (mkRequest "arc_calibrate" [("device_id", self.id)]) (some 10) extNone

/-- `arc.py` lines 41-52. -/
def Arc.toggle_5v (self : Arc) (toggle : Toggle) : Py PyVal × List CallRec :=
  sendCheck self.connection
    (mkRequest "arc_enable_5v"
      [("device_id", self.id), ("enable", PyVal.bool toggle.value)])
    Option.none extNone

/-- `arc.py` lines 64-74. -/
def Arc.toggle_battery_profiling (self : Arc) (toggle : Toggle) :
    Py PyVal × List CallRec :=
  sendCheck self.connection
    (mkRequest "arc_enable_battery_profiling"
      [("device_id", self.id), ("enable", PyVal.bool toggle.value)])
    Option.none extNone

/-- `arc.py` lines 86-98. -/
def Arc.toggle_channel (self : Arc) (channel : Channel) (toggle : Toggle) :
    Py PyVal × List CallRec :=
  sendCheck self.connection
    (mkRequest "arc_enable_channel"
      [("device_id", self.id), ("channel", PyVal.str channel.value),
       ("enable", PyVal.bool toggle.value)])
    Option.none extNone

/-- `arc.py` lines 116-127. -/
def Arc.toggle_exp_port (self : Arc) (toggle : Toggle) :
    Py PyVal × List CallRec :=
  sendCheck self.connection
    (mkRequest "arc_enable_exp_port"
      [("device_id", self.id), ("enable", PyVal.bool toggle.value)])
    Option.none extNone

/-- `arc.py` lines 139-149. -/
def Arc.toggle_uart (self : Arc) (toggle : Toggle) : Py PyVal × List CallRec :=
  sendCheck self.connection
    (mkRequest "arc_enable_uart"
      [("device_id", self.id), ("enable", PyVal.bool toggle.value)])
    Option.none extNone

/-- `arc.py` lines 161-173. -/
def Arc.get_4wire (self : Arc) : Py PyVal × List CallRec :=
  sendCheck self.connection
    (mkRequest "arc_get_4wire" [("device_id", self.id)]) Option.none
    (extDataKey "value")

/-- `arc.py` lines 175-187. -/
def Arc.get_adc_resistor (self : Arc) : Py PyVal × List CallRec :=
  sendCheck self.connection
    (mkRequest "arc_get_adc_resistor" [("device_id", self.id)]) Option.none
    (extDataKey "value")

/-- `arc.py` lines 189-204. -/
def Arc.get_channel_samplerate (self : Arc) (channel : Channel) :
    Py PyVal × List CallRec :=
  sendCheck self.connection
    (mkRequest "arc_get_channel_samplerate"
      [("device_id", self.id), ("channel", PyVal.str channel.value)])
    Option.none (extDataKey "value")

/-- `arc.py` lines 206-218. -/
def Arc.get_exp_voltage (self : Arc) : Py PyVal × List CallRec :=
  sendCheck self.connection
    (mkRequest "arc_get_exp_voltage" [("device_id", self.id)]) Option.none
    (extDataKey "value")

/-- `arc.py` lines 220-235. -/
def Arc.get_gpi (self : Arc) (pin : Int) : Py PyVal × List CallRec :=
  sendCheck self.connection
    (mkRequest "arc_get_gpi" [("device_id", self.id), ("pin", PyVal.int pin)])
    Option.none (extDataKey "value")

/-- `arc.py` lines 237-249. -/
def Arc.get_main (self : Arc) : Py PyVal × List CallRec :=
  sendCheck self.connection
    (mkRequest "arc_get_main" [("device_id", self.id)]) Option.none
    (extDataKey "value")

/-- `arc.py` lines 251-263. -/
def Arc.get_main_voltage (self : Arc) : Py PyVal × List CallRec :=
  sendCheck self.connection
    (mkRequest "arc_get_main_voltage" [("device_id", self.id)]) Option.none
    (extDataKey "value")

/-- `arc.py` lines 265-277. -/
def Arc.get_max_current (self : Arc) : Py PyVal × List CallRec :=
  sendCheck self.connection
    (mkRequest "arc_get_max_current" [("device_id", self.id)]) Option.none
    (extDataKey "value")

/-- `arc.py` lines 279-291. -/
def Arc.get_range (self : Arc) : Py PyVal × List CallRec :=
  sendCheck self.connection
    (mkRequest "arc_get_range" [("device_id", self.id)]) Option.none
    (extDataKey "range")

/-- `arc.py` lines 293-305. -/
def Arc.get_rx (self : Arc) : Py PyVal × List CallRec :=
  sendCheck self.connection
    (mkRequest "arc_get_rx" [("device_id", self.id)]) Option.none
    (extDataKey "value")

/-- `arc.py` lines 307-319. -/
def Arc.get_src_cur_limit_enabled (self : Arc) : Py PyVal × List CallRec :=
  sendCheck self.connection
    (mkRequest "arc_get_src_cur_limit_enabled" [("device_id", self.id)])
    Option.none (extDataKey "enabled")

/-- `arc.py` lines 321-333. -/
def Arc.get_supplies (self : Arc) : Py PyVal × List CallRec :=
  sendCheck self.connection
    (mkRequest "arc_get_supplies" [("device_id", self.id)]) Option.none
    (extDataKey "supplies")

/-- `arc.py` lines 335-347. -/
def Arc.get_supply (self : Arc) : Py PyVal × List CallRec :=
  sendCheck self.connection
    (mkRequest "arc_get_supply" [("device_id", self.id)]) Option.none
    (extDataKey "supply_id")

/-- `arc.py` lines 349-361. -/
def Arc.get_supply_parallel (self : Arc) : Py PyVal × List CallRec :=
  sendCheck self.connection
    (mkRequest "arc_get_supply_parallel" [("device_id", self.id)]) Option.none
    (extDataKey "value")

/-- `arc.py` lines 363-375. -/
def Arc.get_supply_series (self : Arc) : Py PyVal × List CallRec :=
  sendCheck self.connection
    (mkRequest "arc_get_supply_series" [("device_id", self.id)]) Option.none
    (extDataKey "value")

/-- `arc.py` lines 377-389. -/
def Arc.get_supply_soc_tracking (self : Arc) : Py PyVal × List CallRec :=
  sendCheck self.connection
    (mkRequest "arc_get_supply_soc_tracking" [("device_id", self.id)])
    Option.none (extDataKey "enabled")

/-- `arc.py` lines 391-403. -/
def Arc.get_supply_used_capacity (self : Arc) : Py PyVal × List CallRec :=
  sendCheck self.connection
    (mkRequest "arc_get_supply_used_capacity" [("device_id", self.id)])
    Option.none (extDataKey "value")

/-- `arc.py` lines 405-417. -/
def Arc.get_uart_baudrate (self : Arc) : Py PyVal × List CallRec :=
  sendCheck self.connection
    (mkRequest "arc_get_uart_baudrate" [("device_id", self.id)]) Option.none
    (extDataKey "value")

/-- `arc.py` lines 419-435. -/
def Arc.get_value (self : Arc) (channel : Channel) : Py PyVal × List CallRec :=
  sendCheck self.connection
    (mkRequest "arc_get_value"
      [("device_id", self.id), ("channel", PyVal.str channel.value)])
    Option.none (extDataKey "value")

/-- `arc.py` lines 437-449. -/
def Arc.get_version (self : Arc) : Py PyVal × List CallRec :=
  sendCheck self.connection
    (mkRequest "arc_get_version" [("device_id", self.id)]) Option.none extData

/-- `arc.py` lines 451-463. -/
def Arc.is_connected (self : Arc) : Py PyVal × List CallRec :=
  sendCheck self.connection
    (mkRequest "arc_is_connected" [("device_id", self.id)]) Option.none
    (extDataKey "connected")

/-- `arc.py` lines 465-476. -/
def Arc.toggle_4wire (self : Arc) (toggle : Toggle) : Py PyVal × List CallRec :=
  sendCheck self.connection
    (mkRequest "arc_set_4wire"
      [("device_id", self.id), ("enable", PyVal.bool toggle.value)])
    Option.none extNone

/-- `arc.py` lines 488-499. -/
def Arc.set_adc_resistor (self : Arc) (value : Rat) : Py PyVal × List CallRec :=
  sendCheck self.connection
    (mkRequest "arc_set_adc_resistor"
      [("device_id", self.id), ("value", PyVal.float value)])
    Option.none extNone

/-- `arc.py` lines 501-512. -/
def Arc.set_battery_profile (self : Arc) (value : PyVal) :
    Py PyVal × List CallRec :=
  sendCheck self.connection
    (mkRequest "arc_set_battery_profile"
      [("device_id", self.id), ("value", value)])
    Option.none extNone

/-- `arc.py` lines 514-526.  The source body is
`data = {"device_id": self.id, "channel": channel, "value": value.value}`:
the sample-rate argument is documented as an int, and an int has no `value`
attribute, so evaluating the dictionary literal raises `AttributeError`
before any request is built or sent (the channel would also be placed in the
dictionary raw, without taking its `.value` string code). -/
def Arc.set_channel_samplerate (self : Arc) (channel : Channel) (value : Int) :
    Py PyVal × List CallRec :=
  (Except.error (PyExc.attributeError "value"), [])

/-- `arc.py` lines 528-539. -/
def Arc.set_exp_voltage (self : Arc) (value : Rat) : Py PyVal × List CallRec :=
  sendCheck self.connection
    (mkRequest "arc_set_exp_voltage"
      [("device_id", self.id), ("value", PyVal.float value)])
    Option.none extNone

/-- `arc.py` lines 541-553. -/
def Arc.toggle_gpo (self : Arc) (pin : Int) (toggle : Toggle) :
    Py PyVal × List CallRec :=
  sendCheck self.connection
    (mkRequest "arc_set_gpo"
      [("device_id", self.id), ("pin", PyVal.int pin),
       ("value", PyVal.bool toggle.value)])
    Option.none extNone

/-- `arc.py` lines 571-582. -/
def Arc.toggle_main (self : Arc) (toggle : Toggle) : Py PyVal × List CallRec :=
  sendCheck self.connection
    (mkRequest "arc_set_main"
      [("device_id", self.id), ("enable", PyVal.bool toggle.value)])
    Option.none extNone

/-- `arc.py` lines 594-605. -/
def Arc.set_main_current (self : Arc) (value : Rat) : Py PyVal × List CallRec :=
  sendCheck self.connection
    (mkRequest "arc_set_main_current"
      [("device_id", self.id), ("value", PyVal.float value)])
    Option.none extNone

/-- `arc.py` lines 607-618. -/
def Arc.set_main_voltage (self : Arc) (value : Rat) : Py PyVal × List CallRec :=
  sendCheck self.connection
    (mkRequest "arc_set_main_voltage"
      [("device_id", self.id), ("value", PyVal.float value)])
    Option.none extNone

/-- `arc.py` lines 620-631. -/
def Arc.set_max_current (self : Arc) (value : Rat) : Py PyVal × List CallRec :=
  sendCheck self.connection
    (mkRequest "arc_set_max_current"
      [("device_id", self.id), ("value", PyVal.float value)])
    Option.none extNone

/-- `arc.py` lines 633-644. -/
def Arc.set_power_regulation (self : Arc) (mode : String) :
    Py PyVal × List CallRec :=
  sendCheck self.connection
    (mkRequest "arc_set_power_regulation"
      [("device_id", self.id), ("mode", PyVal.str mode)])
    Option.none extNone

/-- `arc.py` lines 646-657. -/
def Arc.set_range (self : Arc) (range : String) : Py PyVal × List CallRec :=
  sendCheck self.connection
    (mkRequest "arc_set_range"
      [("device_id", self.id), ("range", PyVal.str range)])
    Option.none extNone

/-- `arc.py` lines 659-670. -/
def Arc.toggle_src_cur_limit (self : Arc) (toggle : Toggle) :
    Py PyVal × List CallRec :=
  sendCheck self.connection
    (mkRequest "arc_set_src_cur_limit_enabled"
      [("device_id", self.id), ("enable", PyVal.bool toggle.value)])
    Option.none extNone

/-- `arc.py` lines 682-695. -/
def Arc.set_supply (self : Arc) (supply_id series parallel : Int) :
    Py PyVal × List CallRec :=
  sendCheck self.connection
    (mkRequest "arc_set_supply"
      [("device_id", self.id), ("supply_id", PyVal.int supply_id),
       ("series", PyVal.int series), ("parallel", PyVal.int parallel)])
    Option.none extNone

/-- `arc.py` lines 697-708. -/
def Arc.toggle_supply_soc_tracking (self : Arc) (toggle : Toggle) :
    Py PyVal × List CallRec :=
  sendCheck self.connection
    (mkRequest "arc_set_supply_soc_tracking"
      [("device_id", self.id), ("enable", PyVal.bool toggle.value)])
    Option.none extNone

/-- `arc.py` lines 720-731. -/
def Arc.set_supply_used_capacity (self : Arc) (value : Rat) :
    Py PyVal × List CallRec :=
  sendCheck self.connection
    (mkRequest "arc_set_supply_used_capacity"
      [("device_id", self.id), ("value", PyVal.float value)])
    Option.none extNone

/-- `arc.py` lines 733-744. -/
def Arc.toggle_tx (self : Arc) (toggle : Toggle) : Py PyVal × List CallRec :=
  sendCheck self.connection
    (mkRequest "arc_set_tx"
      [("device_id", self.id), ("value", PyVal.bool toggle.value)])
    Option.none extNone

/-- `arc.py` lines 756-767. -/
def Arc.set_uart_baudrate (self : Arc) (value : Int) :
    Py PyVal × List CallRec :=
  sendCheck self.connection
    (mkRequest "arc_set_uart_baudrate"
      [("device_id", self.id), ("value", PyVal.int value)])
    Option.none extNone

/-- `arc.py` lines 769-785: the timeout argument is in milliseconds and the
call uses the extended timeout `60 + timeout / 1000` (Python 3 true
division). -/
def Arc.wait_for_battery_data (self : Arc) (timeout : Int) :
    Py PyVal × List CallRec :=
  sendCheck self.connection
    (mkRequest "arc_wait_for_battery_data"
      [("device_id", self.id), ("timeout", PyVal.int timeout)])
    (some ((60 : Rat) + (timeout : Rat) / 1000)) (extDataKey "value")

/-- `arc.py` lines 787-798. -/
def Arc.write_tx (self : Arc) (value : String) : Py PyVal × List CallRec :=
  sendCheck self.connection
    (mkRequest "arc_write_tx"
      [("device_id", self.id), ("value", PyVal.str value)])
    Option.none extNone

/-- `arc.py` lines 800-806. -/
def Arc.get_property (self : Arc) (name : String) : Py PyVal × List CallRec :=
  sendCheck self.connection
    (mkRequest "arc_get_property"
      [("device_id", self.id), ("name", PyVal.str name)])
    Option.none (extDataGet "value")

/-- `arc.py` lines 808-813. -/
def Arc.set_property (self : Arc) (name : String) (value : PyVal) :
    Py PyVal × List CallRec :=
  sendCheck self.connection
    (mkRequest "arc_set_property"
      [("device_id", self.id), ("name", PyVal.str name), ("value", value)])
    Option.none extNone

/-- `arc.py` lines 815-820. -/
def Arc.commit (self : Arc) : Py PyVal × List CallRec :=
  sendCheck self.connection
    (mkRequest "arc_commit" [("device_id", self.id)]) Option.none extNone

/-- `arc.py` lines 822-833: `filename` defaults to `None`. -/
def Arc.firmware_upgrade (self : Arc) (filename : Option String) :
    Py PyVal × List CallRec :=
  sendCheck self.connection
    (mkRequest "arc_firmware_upgrade"
      [("device_id", self.id),
       ("filename",
         match filename with
         | some s => PyVal.str s
         | Option.none => PyVal.none)])
    (some 15) extNone

/-- The public operations of the Arc device handle, one constructor per
public method of `arc.py` (including the thin enable/disable wrappers),
carrying each method's arguments. -/
inductive Op where
  | calibrate
  | toggle_5v (toggle : Toggle)
  | enable_5v
  | disable_5v
  | toggle_battery_profiling (toggle : Toggle)
  | enable_battery_profiling
  | disable_battery_profiling
  | toggle_channel (channel : Channel) (toggle : Toggle)
  | enable_channel (channel : Channel)
  | disable_channel (channel : Channel)
  | toggle_exp_port (toggle : Toggle)
  | enable_exp_port
  | disable_exp_port
  | toggle_uart (toggle : Toggle)
  | enable_uart
  | disable_uart
  | get_4wire
  | get_adc_resistor
  | get_channel_samplerate (channel : Channel)
  | get_exp_voltage
  | get_gpi (pin : Int)
  | get_main
  | get_main_voltage
  | get_max_current
  | get_range
  | get_rx
  | get_src_cur_limit_enabled
  | get_supplies
  | get_supply
  | get_supply_parallel
  | get_supply_series
  | get_supply_soc_tracking
  | get_supply_used_capacity
  | get_uart_baudrate
  | get_value (channel : Channel)
  | get_version
  | is_connected
  | toggle_4wire (toggle : Toggle)
  | enable_4wire
  | disable_4wire
  | set_adc_resistor (value : Rat)
  | set_battery_profile (value : PyVal)
  | set_channel_samplerate (channel : Channel) (value : Int)
  | set_exp_voltage (value : Rat)
  | toggle_gpo (pin : Int) (toggle : Toggle)
  | enable_gpo (pin : Int)
  | disable_gpo (pin : Int)
  | toggle_main (toggle : Toggle)
  | enable_main
  | disable_main
  | set_main_current (value : Rat)
  | set_main_voltage (value : Rat)
  | set_max_current (value : Rat)
  | set_power_regulation (mode : String)
  | set_range (range : String)
  | toggle_src_cur_limit (toggle : Toggle)
  | enable_toggle_src_cur_limit
  | disable_toggle_src_cur_limit
  | set_supply (supply_id series parallel : Int)
  | toggle_supply_soc_tracking (toggle : Toggle)
  | enable_supply_soc_tracking
  | disable_supply_soc_tracking
  | set_supply_used_capacity (value : Rat)
  | toggle_tx (toggle : Toggle)
  | enable_tx
  | disable_tx
  | set_uart_baudrate (value : Int)
  | wait_for_battery_data (timeout : Int)
  | write_tx (value : String)
  | get_property (name : String)
  | set_property (name : String) (value : PyVal)
  | commit
  | firmware_upgrade (filename : Option String)

/-- Run one public operation on the handle.  Each branch is the corresponding
method of `arc.py` (the enable/disable wrappers call their base method with
`Toggle.ON` / `Toggle.OFF` exactly as in the source); the final `Arc` is the
state of the handle after the call (no method body assigns to a field). -/
def Arc.run (self : Arc) : Op → (Py PyVal × List CallRec) × Arc
  | Op.calibrate => (self.calibrate, self)
  | Op.toggle_5v toggle => (self.toggle_5v toggle, self)
  | Op.enable_5v => (self.toggle_5v Toggle.ON, self)
  | Op.disable_5v => (self.toggle_5v Toggle.OFF, self)
  | Op.toggle_battery_profiling toggle => (self.toggle_battery_profiling toggle, self)
  | Op.enable_battery_profiling => (self.toggle_battery_profiling Toggle.ON, self)
  | Op.disable_battery_profiling => (self.toggle_battery_profiling Toggle.OFF, self)
  | Op.toggle_channel channel toggle => (self.toggle_channel channel toggle, self)
  | Op.enable_channel channel => (self.toggle_channel channel Toggle.ON, self)
  | Op.disable_channel channel => (self.toggle_channel channel Toggle.OFF, self)
  | Op.toggle_exp_port toggle => (self.toggle_exp_port toggle, self)
  | Op.enable_exp_port => (self.toggle_exp_port Toggle.ON, self)
  | Op.disable_exp_port => (self.toggle_exp_port Toggle.OFF, self)
  | Op.toggle_uart toggle => (self.toggle_uart toggle, self)
  | Op.enable_uart => (self.toggle_uart Toggle.ON, self)
  | Op.disable_uart => (self.toggle_uart Toggle.OFF, self)
  | Op.get_4wire => (self.get_4wire, self)
  | Op.get_adc_resistor => (self.get_adc_resistor, self)
  | Op.get_channel_samplerate channel => (self.get_channel_samplerate channel, self)
  | Op.get_exp_voltage => (self.get_exp_voltage, self)
  | Op.get_gpi pin => (self.get_gpi pin, self)
  | Op.get_main => (self.get_main, self)
  | Op.get_main_voltage => (self.get_main_voltage, self)
  | Op.get_max_current => (self.get_max_current, self)
  | Op.get_range => (self.get_range, self)
  | Op.get_rx => (self.get_rx, self)
  | Op.get_src_cur_limit_enabled => (self.get_src_cur_limit_enabled, self)
  | Op.get_supplies => (self.get_supplies, self)
  | Op.get_supply => (self.get_supply, self)
  | Op.get_supply_parallel => (self.get_supply_parallel, self)
  | Op.get_supply_series => (self.get_supply_series, self)
  | Op.get_supply_soc_tracking => (self.get_supply_soc_tracking, self)
  | Op.get_supply_used_capacity => (self.get_supply_used_capacity, self)
  | Op.get_uart_baudrate => (self.get_uart_baudrate, self)
  | Op.get_value channel => (self.get_value channel, self)
  | Op.get_version => (self.get_version, self)
  | Op.is_connected => (self.is_connected, self)
  | Op.toggle_4wire toggle => (self.toggle_4wire toggle, self)
  | Op.enable_4wire => (self.toggle_4wire Toggle.ON, self)
  | Op.disable_4wire => (self.toggle_4wire Toggle.OFF, self)
  | Op.set_adc_resistor value => (self.set_adc_resistor value, self)
  | Op.set_battery_profile value => (self.set_battery_profile value, self)
  | Op.set_channel_samplerate channel value => (self.set_channel_samplerate channel value, self)
  | Op.set_exp_voltage value => (self.set_exp_voltage value, self)
  | Op.toggle_gpo pin toggle => (self.toggle_gpo pin toggle, self)
  | Op.enable_gpo pin => (self.toggle_gpo pin Toggle.ON, self)
  | Op.disable_gpo pin => (self.toggle_gpo pin Toggle.OFF, self)
  | Op.toggle_main toggle => (self.toggle_main toggle, self)
  | Op.enable_main => (self.toggle_main Toggle.ON, self)
  | Op.disable_main => (self.toggle_main Toggle.OFF, self)
  | Op.set_main_current value => (self.set_main_current value, self)
  | Op.set_main_voltage value => (self.set_main_voltage value, self)
  | Op.set_max_current value => (self.set_max_current value, self)
  | Op.set_power_regulation mode => (self.set_power_regulation mode, self)
  | Op.set_range range => (self.set_range range, self)
  | Op.toggle_src_cur_limit toggle => (self.toggle_src_cur_limit toggle, self)
  | Op.enable_toggle_src_cur_limit => (self.toggle_src_cur_limit Toggle.ON, self)
  | Op.disable_toggle_src_cur_limit => (self.toggle_src_cur_limit Toggle.OFF, self)
  | Op.set_supply supply_id series parallel => (self.set_supply supply_id series parallel, self)
  | Op.toggle_supply_soc_tracking toggle => (self.toggle_supply_soc_tracking toggle, self)
  | Op.enable_supply_soc_tracking => (self.toggle_supply_soc_tracking Toggle.ON, self)
  | Op.disable_supply_soc_tracking => (self.toggle_supply_soc_tracking Toggle.OFF, self)
  | Op.set_supply_used_capacity value => (self.set_supply_used_capacity value, self)
  | Op.toggle_tx toggle => (self.toggle_tx toggle, self)
  | Op.enable_tx => (self.toggle_tx Toggle.ON, self)
  | Op.disable_tx => (self.toggle_tx Toggle.OFF, self)
  | Op.set_uart_baudrate value => (self.set_uart_baudrate value, self)
  | Op.wait_for_battery_data timeout => (self.wait_for_battery_data timeout, self)
  | Op.write_tx value => (self.write_tx value, self)
  | Op.get_property name => (self.get_property name, self)
  | Op.set_property name value => (self.set_property name value, self)
  | Op.commit => (self.commit, self)
  | Op.firmware_upgrade filename => (self.firmware_upgrade filename, self)

/-- The `Toggle` argument of an operation, for the operations that take
one. -/
def Op.toggleArg : Op → Option Toggle
  | Op.toggle_5v toggle => some toggle
  | Op.toggle_battery_profiling toggle => some toggle
  | Op.toggle_channel _ toggle => some toggle
  | Op.toggle_exp_port toggle => some toggle
  | Op.toggle_uart toggle => some toggle
  | Op.toggle_4wire toggle => some toggle
  | Op.toggle_gpo _ toggle => some toggle
  | Op.toggle_main toggle => some toggle
  | Op.toggle_src_cur_limit toggle => some toggle
  | Op.toggle_supply_soc_tracking toggle => some toggle
  | Op.toggle_tx toggle => some toggle
  | _ => Option.none

/-- The documented `data` key a value-returning getter extracts, per its
docstring (`get_version` returns the whole payload and `get_property` uses a
defaulting lookup, so neither is listed here). -/
def Op.docKey : Op → Option String
  | Op.get_4wire => some "value"
  | Op.get_adc_resistor => some "value"
  | Op.get_channel_samplerate _ => some "value"
  | Op.get_exp_voltage => some "value"
  | Op.get_gpi _ => some "value"
  | Op.get_main => some "value"
  | Op.get_main_voltage => some "value"
  | Op.get_max_current => some "value"
  | Op.get_range => some "range"
  | Op.get_rx => some "value"
  | Op.get_src_cur_limit_enabled => some "enabled"
  | Op.get_supplies => some "supplies"
  | Op.get_supply => some "supply_id"
  | Op.get_supply_parallel => some "value"
  | Op.get_supply_series => some "value"
  | Op.get_supply_soc_tracking => some "enabled"
  | Op.get_supply_used_capacity => some "value"
  | Op.get_uart_baudrate => some "value"
  | Op.get_value _ => some "value"
  | Op.is_connected => some "connected"
  | Op.wait_for_battery_data _ => some "value"
  | _ => Option.none

/-- The list of timeout arguments the spec documents for the
`send_and_receive` invocations of one operation: the default timeout for all
operations except `calibrate` (10), `firmware_upgrade` (15) and
`wait_for_battery_data` (60 plus the caller's millisecond timeout divided by
1000) — and no invocation at all for `set_channel_samplerate`, whose body
raises before sending. -/
def Op.wireTimeouts : Op → List (Option Rat)
  | Op.calibrate => [some 10]
  | Op.firmware_upgrade _ => [some 15]
  | Op.wait_for_battery_data timeout => [some ((60 : Rat) + (timeout : Rat) / 1000)]
  | Op.set_channel_samplerate _ _ => []
  | _ => [Option.none]

/-- Documented field extraction, following the spec and the method
docstrings: a success response yields, for each single-field getter, the
entry of the `data` payload named in its docstring; for `get_version` the
`data` payload itself; for `get_property` the `value` entry of `data` or
`None` when absent; and `None` for every pure-command operation. -/
def docField (key : String) (response : PyVal) : Py PyVal :=
  match response.subscript "data" with
  | Except.error e => Except.error e
  | Except.ok d => d.subscript key

/-- Documented defaulting extraction for `get_property` (see `docField`). -/
def docFieldDefault (key : String) (response : PyVal) : Py PyVal :=
  match response.subscript "data" with
  | Except.error e => Except.error e
  | Except.ok d => d.getDefault key

/-- The documented return value of each operation on a success response (see
`docField`); written from the docstrings, to be compared with what the code
returns. -/
def docResult : Op → PyVal → Py PyVal
  | Op.get_4wire, response => docField "value" response
  | Op.get_adc_resistor, response => docField "value" response
  | Op.get_channel_samplerate _, response => docField "value" response
  | Op.get_exp_voltage, response => docField "value" response
  | Op.get_gpi _, response => docField "value" response
  | Op.get_main, response => docField "value" response
  | Op.get_main_voltage, response => docField "value" response
  | Op.get_max_current, response => docField "value" response
  | Op.get_range, response => docField "range" response
  | Op.get_rx, response => docField "value" response
  | Op.get_src_cur_limit_enabled, response => docField "enabled" response
  | Op.get_supplies, response => docField "supplies" response
  | Op.get_supply, response => docField "supply_id" response
  | Op.get_supply_parallel, response => docField "value" response
  | Op.get_supply_series, response => docField "value" response
  | Op.get_supply_soc_tracking, response => docField "enabled" response
  | Op.get_supply_used_capacity, response => docField "value" response
  | Op.get_uart_baudrate, response => docField "value" response
  | Op.get_value _, response => docField "value" response
  | Op.get_version, response => response.subscript "data"
  | Op.is_connected, response => docField "connected" response
  | Op.wait_for_battery_data _, response => docField "value" response
  | Op.get_property _, response => docFieldDefault "value" response
  | _, _ => Except.ok PyVal.none

/-- The `data` mapping of a request envelope (empty for malformed
envelopes). -/
def requestData : PyVal → List (String × PyVal)
  | PyVal.dict entries =>
      match lookupKey entries "data" with
      | some (PyVal.dict d) => d
      | _ => []
  | _ => []

/-- Whether a response would make the client raise `Otii_Exception`: its
`type` field exists and equals `"error"`. -/
def isErrorResponse (response : PyVal) : Bool :=
  match response.subscript "type" with
  | Except.ok t => t.eqStr "error"
  | Except.error _ => false

/-- A connection whose responses are always successes with an empty `data`
payload; used for concrete witnesses. -/
def connOkEmpty : Conn :=
  fun _ _ =>
    PyVal.dict [("type", PyVal.str "response"), ("data", PyVal.dict [])]

/-- A connection whose responses are always error responses; used for
concrete witnesses. -/
def connErr : Conn :=
  fun _ _ =>
    PyVal.dict [("type", PyVal.str "error"), ("errorcode", PyVal.str "boom")]

/-- A connection answering `arc_get_version` style responses whose `data`
payload carries an entry beyond `hw_version` and `fw_version`. -/
def connVer : Conn :=
  fun _ _ =>
    PyVal.dict
      [("type", PyVal.str "response"),
       ("data",
         PyVal.dict
           [("hw_version", PyVal.str "B1"), ("fw_version", PyVal.str "1.2"),
            ("extra", PyVal.int 7)])]

/-- A concrete handle wired to `connOkEmpty`. -/
def arcSample : Arc :=
  { type := PyVal.str "Arc", id := PyVal.str "uid-1",
    name := PyVal.str "Arc-1", connection := connOkEmpty }

/-- A concrete handle wired to `connErr`. -/
def arcErr : Arc :=
  { type := PyVal.str "Arc", id := PyVal.str "uid-2",
    name := PyVal.str "Arc-2", connection := connErr }

/-- A concrete handle wired to `connVer`. -/
def arcVer : Arc :=
  { type := PyVal.str "Arc", id := PyVal.str "uid-3",
    name := PyVal.str "Arc-3", connection := connVer }

/-- A concrete device dictionary for exercising `Arc.init`. -/
def devDict : PyVal :=
  PyVal.dict
    [("type", PyVal.str "Arc"), ("device_id", PyVal.str "uid-4"),
     ("name", PyVal.str "Arc-4")]

/-- The handle `Arc.init devDict connOkEmpty` constructs. -/
def arcInit : Arc :=
  { type := PyVal.str "Arc", id := PyVal.str "uid-4",
    name := PyVal.str "Arc-4", connection := connOkEmpty }

/-- A failing subscript raises `KeyError` on the key or `TypeError`, never
`Otii_Exception`. -/
theorem subscript_error_shape (v : PyVal) (key : String) (e : PyExc)
    (h : v.subscript key = Except.error e) :
    e = PyExc.keyError key ∨ e = PyExc.typeError := by
  cases v <;> simp only [PyVal.subscript] at h
  case dict d =>
    cases hl : lookupKey d key <;> rw [hl] at h
    · exact Or.inl (Except.error.inj h).symm
    · exact absurd h (by simp)
  all_goals exact Or.inr (Except.error.inj h).symm

/-- A failing defaulting lookup raises `AttributeError`, never
`Otii_Exception`. -/
theorem getDefault_error_shape (v : PyVal) (key : String) (e : PyExc)
    (h : v.getDefault key = Except.error e) :
    e = PyExc.attributeError "get" := by
  cases v <;> simp only [PyVal.getDefault] at h
  case dict d =>
    cases hl : lookupKey d key <;> rw [hl] at h <;> exact absurd h (by simp)
  all_goals exact (Except.error.inj h).symm

/-- `extNone` never raises `Otii_Exception`. -/
theorem extNone_ne_otii (r e : PyVal) :
    extNone r ≠ Except.error (PyExc.otii e) := by
  simp [extNone]

/-- `extDataKey` never raises `Otii_Exception`. -/
theorem extDataKey_ne_otii (key : String) (r e : PyVal) :
    extDataKey key r ≠ Except.error (PyExc.otii e) := by
  intro h
  unfold extDataKey at h
  cases hs : r.subscript "data" with
  | error e2 =>
      rw [hs] at h
      rcases subscript_error_shape r "data" e2 hs with h2 | h2 <;>
        simp [h2] at h
  | ok d =>
      rw [hs] at h
      rcases subscript_error_shape d key (PyExc.otii e) h with h2 | h2 <;>
        exact PyExc.noConfusion h2

/-- `extData` never raises `Otii_Exception`. -/
theorem extData_ne_otii (r e : PyVal) :
    extData r ≠ Except.error (PyExc.otii e) := by
  intro h
  rcases subscript_error_shape r "data" (PyExc.otii e) h with h2 | h2 <;>
    exact PyExc.noConfusion h2

/-- `extDataGet` never raises `Otii_Exception`. -/
theorem extDataGet_ne_otii (key : String) (r e : PyVal) :
    extDataGet key r ≠ Except.error (PyExc.otii e) := by
  intro h
  unfold extDataGet at h
  cases hs : r.subscript "data" with
  | error e2 =>
      rw [hs] at h
      rcases subscript_error_shape r "data" e2 hs with h2 | h2 <;>
        simp [h2] at h
  | ok d =>
      rw [hs] at h
      exact PyExc.noConfusion (getDefault_error_shape d key (PyExc.otii e) h)

/-- A response whose `type` subscript fails is not an error response. -/
theorem isErrorResponse_of_sub_error (resp : PyVal) (e : PyExc)
    (hs : resp.subscript "type" = Except.error e) :
    isErrorResponse resp = false := by
  unfold isErrorResponse
  rw [hs]

/-- When the `type` subscript succeeds, `isErrorResponse` is the string
comparison with `"error"`. -/
theorem isErrorResponse_of_sub_ok (resp t : PyVal)
    (hs : resp.subscript "type" = Except.ok t) :
    isErrorResponse resp = t.eqStr "error" := by
  unfold isErrorResponse
  rw [hs]

/-- When the `type` subscript fails, `dispatch` re-raises that failure. -/
theorem dispatch_of_sub_error (ext : PyVal → Py PyVal) (response : PyVal)
    (e : PyExc) (hs : response.subscript "type" = Except.error e) :
    dispatch ext response = Except.error e := by
  unfold dispatch
  rw [hs]

/-- On a success response (its `type` field exists and is not `"error"`),
`dispatch` runs the extraction. -/
theorem dispatch_success (ext : PyVal → Py PyVal) (response tv : PyVal)
    (htv : response.subscript "type" = Except.ok tv)
    (hne : tv.eqStr "error" = false) :
    dispatch ext response = ext response := by
  unfold dispatch
  rw [htv]
  simp [hne]

/-- When the `type` field equals `"error"`, `dispatch` raises
`Otii_Exception` carrying the full response. -/
theorem dispatch_of_type_error (ext : PyVal → Py PyVal) (response t : PyVal)
    (hs : response.subscript "type" = Except.ok t)
    (he : t.eqStr "error" = true) :
    dispatch ext response = Except.error (PyExc.otii response) := by
  unfold dispatch
  rw [hs]
  simp [he]

/-- `dispatch` raises `Otii_Exception resp` exactly when the response is
`resp` and its `type` field equals `"error"` (for extractions that never
raise `Otii_Exception` themselves). -/
theorem dispatch_otii_iff (ext : PyVal → Py PyVal) (response : PyVal)
    (hext : ∀ e, ext response ≠ Except.error (PyExc.otii e)) (resp : PyVal) :
    dispatch ext response = Except.error (PyExc.otii resp) ↔
      response = resp ∧ isErrorResponse resp = true := by
  cases hs : response.subscript "type" with
  | error e =>
      rw [dispatch_of_sub_error ext response e hs]
      constructor
      · intro h
        rcases subscript_error_shape response "type" e hs with h2 | h2 <;>
          subst h2 <;> exact absurd h (by simp)
      · rintro ⟨rfl, h⟩
        rw [isErrorResponse_of_sub_error response e hs] at h
        exact absurd h (by simp)
  | ok t =>
      by_cases he : t.eqStr "error" = true
      · rw [dispatch_of_type_error ext response t hs he]
        constructor
        · intro h
          obtain rfl := PyExc.otii.inj (Except.error.inj h)
          refine ⟨rfl, ?_⟩
          rw [isErrorResponse_of_sub_ok response t hs]
          exact he
        · rintro ⟨rfl, _⟩
          rfl
      · rw [Bool.not_eq_true] at he
        rw [dispatch_success ext response t hs he]
        constructor
        · intro h
          exact absurd h (hext resp)
        · rintro ⟨rfl, h⟩
          rw [isErrorResponse_of_sub_ok response t hs] at h
          exact absurd h (by simp [he])

/-- `sendCheck` raises `Otii_Exception resp` exactly when one of its recorded
invocations received the response `resp` and that response's `type` field
equals `"error"`. -/
theorem sendCheck_otii_iff (conn : Conn) (req : PyVal) (tm : Option Rat)
    (ext : PyVal → Py PyVal)
    (hext : ∀ r e, ext r ≠ Except.error (PyExc.otii e)) (resp : PyVal) :
    (sendCheck conn req tm ext).1 = Except.error (PyExc.otii resp) ↔
      ∃ c, c ∈ (sendCheck conn req tm ext).2 ∧
        conn c.request c.timeout = resp ∧ isErrorResponse resp = true := by
  rw [show (sendCheck conn req tm ext).1 = dispatch ext (conn req tm) from rfl]
  rw [dispatch_otii_iff ext (conn req tm) (hext (conn req tm)) resp]
  constructor
  · rintro ⟨h1, h2⟩
    exact ⟨⟨req, tm⟩, List.mem_singleton.mpr rfl, h1, h2⟩
  · rintro ⟨c, hc, h1, h2⟩
    obtain rfl := List.mem_singleton.mp hc
    exact ⟨h1, h2⟩

/-- On a success response whose `data` payload is a dict lacking `key`, the
single-field extraction raises `KeyError key`. -/
theorem dispatch_missing_key (key : String) (response tv : PyVal)
    (d : List (String × PyVal))
    (htv : response.subscript "type" = Except.ok tv)
    (hne : tv.eqStr "error" = false)
    (hdata : response.subscript "data" = Except.ok (PyVal.dict d))
    (hmiss : lookupKey d key = Option.none) :
    dispatch (extDataKey key) response = Except.error (PyExc.keyError key) := by
  rw [dispatch_success _ _ _ htv hne]
  unfold extDataKey
  rw [hdata]
  simp [PyVal.subscript, hmiss]

/-- On a success response whose `data` payload is a dict lacking `key`, the
defaulting extraction returns `None`. -/
theorem dispatch_get_missing_key (key : String) (response tv : PyVal)
    (d : List (String × PyVal))
    (htv : response.subscript "type" = Except.ok tv)
    (hne : tv.eqStr "error" = false)
    (hdata : response.subscript "data" = Except.ok (PyVal.dict d))
    (hmiss : lookupKey d key = Option.none) :
    dispatch (extDataGet key) response = Except.ok PyVal.none := by
  rw [dispatch_success _ _ _ htv hne]
  unfold extDataGet
  rw [hdata]
  simp [PyVal.getDefault, hmiss]

/-- Lookup of the head key of an association list. -/
theorem lookupKey_head {k : String} {v : PyVal}
    {rest : List (String × PyVal)} :
    lookupKey ((k, v) :: rest) k = some v := by
  simp [lookupKey]

/-- C1: for every public operation of the Arc device handle, the operation
raises `Otii_Exception` carrying the full response exactly when a
`send_and_receive` invocation it made returned a response whose `type` field
equals `"error"`; the exception carries exactly that response, and no other
situation raises this exception. -/
theorem error_responses_raise_otii_iff (self : Arc) (op : Op) (resp : PyVal) :
    (self.run op).1.1 = Except.error (PyExc.otii resp) ↔
      ∃ c, c ∈ (self.run op).1.2 ∧
        self.connection c.request c.timeout = resp ∧
        isErrorResponse resp = true := by
  cases op <;>
    first
      | exact sendCheck_otii_iff _ _ _ _ extNone_ne_otii resp
      | exact sendCheck_otii_iff _ _ _ _ (fun r e => extDataKey_ne_otii _ r e) resp
      | exact sendCheck_otii_iff _ _ _ _ extData_ne_otii resp
      | exact sendCheck_otii_iff _ _ _ _ (fun r e => extDataGet_ne_otii _ r e) resp
      | simp [Arc.run, Arc.set_channel_samplerate]

/-- Witness for `error_responses_raise_otii_iff`: a concrete handle whose
connection reports an error raises the exception carrying the full error
response. -/
theorem error_responses_raise_otii_iff_witness :
    (arcErr.run Op.get_main).1.1 =
      Except.error (PyExc.otii
        (PyVal.dict
          [("type", PyVal.str "error"), ("errorcode", PyVal.str "boom")])) :=
  (error_responses_raise_otii_iff arcErr Op.get_main _).mpr
    ⟨⟨mkRequest "arc_get_main" [("device_id", PyVal.str "uid-2")], Option.none⟩,
     List.mem_singleton.mpr rfl, rfl, rfl⟩

/-- C2 counterexample: with a success response whose `data` payload carries an
entry `extra` beyond the documented `hw_version` and `fw_version`,
`get_version` returns the whole payload — the undocumented `extra` entry
included — refuting the claim that it returns only the `hw_version` and
`fw_version` entries and no others. -/
theorem get_version_returns_undocumented_entry :
    (arcVer.run Op.get_version).1.1 =
      Except.ok
        (PyVal.dict
          [("hw_version", PyVal.str "B1"), ("fw_version", PyVal.str "1.2"),
           ("extra", PyVal.int 7)]) := rfl

/-- C2 (amended): for every public operation, when a `send_and_receive`
invocation returned a success response (`type` field present and not equal to
`"error"`), the operation's result is exactly the documented extraction
`docResult`: the single documented `data` entry for each single-field getter,
the whole `data` payload as-is for `get_version`, the defaulting `value`
lookup for `get_property`, and `None` for pure-command operations. -/
theorem success_returns_documented_result (self : Arc) (op : Op) (c : CallRec)
    (tv : PyVal) (hc : c ∈ (self.run op).1.2)
    (htv : (self.connection c.request c.timeout).subscript "type" =
      Except.ok tv)
    (hne : tv.eqStr "error" = false) :
    (self.run op).1.1 = docResult op (self.connection c.request c.timeout) := by
  cases op <;>
    first
      | exact absurd hc (List.not_mem_nil c)
      | (obtain rfl := List.mem_singleton.mp hc
         exact (dispatch_success _ _ _ htv hne).trans rfl)

/-- Witness for `success_returns_documented_result` at a concrete success
response. -/
theorem success_returns_documented_result_witness :
    (arcSample.run Op.get_supply).1.1 =
      docResult Op.get_supply
        (PyVal.dict
          [("type", PyVal.str "response"), ("data", PyVal.dict [])]) :=
  success_returns_documented_result arcSample Op.get_supply
    ⟨mkRequest "arc_get_supply" [("device_id", PyVal.str "uid-1")],
     Option.none⟩
    (PyVal.str "response") (List.mem_singleton.mpr rfl) rfl rfl

/-- C3 (code bug, `arc.py` line 522): `set_channel_samplerate` evaluates
`value.value` on its int sample-rate argument and so raises `AttributeError`
without sending anything — instead of carrying the channel's short string
code under `"channel"` and the sample rate unchanged under `"value"`.  The
companion channel operations do carry the channel's short string code, shown
here for `toggle_channel` on the main current channel. -/
theorem set_channel_samplerate_attribute_error :
    (arcSample.run (Op.set_channel_samplerate Channel.MAIN_CURRENT 1000)).1.1 =
      Except.error (PyExc.attributeError "value") ∧
    (arcSample.run (Op.set_channel_samplerate Channel.MAIN_CURRENT 1000)).1.2 =
      [] ∧
    Channel.value Channel.MAIN_CURRENT = "mc" ∧
    (arcSample.run (Op.toggle_channel Channel.MAIN_CURRENT Toggle.ON)).1.2 =
      [⟨mkRequest "arc_enable_channel"
          [("device_id", PyVal.str "uid-1"), ("channel", PyVal.str "mc"),
           ("enable", PyVal.bool true)], Option.none⟩] :=
  ⟨rfl, rfl, rfl, rfl⟩

/-- C4: for every operation taking a `Toggle` argument, the request's data
mapping carries the toggle's boolean wire value — `true` for `Toggle.ON` and
`false` for `Toggle.OFF`. -/
theorem toggle_maps_to_bool_on_wire (self : Arc) (op : Op) (t : Toggle)
    (c : CallRec) (ht : op.toggleArg = some t)
    (hc : c ∈ (self.run op).1.2) :
    Toggle.value Toggle.ON = true ∧ Toggle.value Toggle.OFF = false ∧
    ∃ key, lookupKey (requestData c.request) key =
      some (PyVal.bool t.value) := by
  cases op <;>
    first
      | (obtain rfl := Option.some.inj ht
         obtain rfl := List.mem_singleton.mp hc
         first
           | exact ⟨rfl, rfl, "enable", rfl⟩
           | exact ⟨rfl, rfl, "value", rfl⟩)
      | simp [Op.toggleArg] at ht

/-- Witness for `toggle_maps_to_bool_on_wire` at `toggle_5v Toggle.ON`. -/
theorem toggle_maps_to_bool_on_wire_witness :
    Toggle.value Toggle.ON = true ∧ Toggle.value Toggle.OFF = false ∧
    ∃ key, lookupKey
        (requestData
          (mkRequest "arc_enable_5v"
            [("device_id", PyVal.str "uid-1"), ("enable", PyVal.bool true)]))
        key = some (PyVal.bool (Toggle.value Toggle.ON)) :=
  toggle_maps_to_bool_on_wire arcSample (Op.toggle_5v Toggle.ON) Toggle.ON
    ⟨mkRequest "arc_enable_5v"
        [("device_id", PyVal.str "uid-1"), ("enable", PyVal.bool true)],
     Option.none⟩ rfl (List.mem_singleton.mpr rfl)

/-- C5: each `Channel` member maps to its documented short string code, and
the thirteen listed members are all the members there are. -/
theorem channel_enum_codes_complete :
    Channel.value Channel.MAIN_CURRENT = "mc" ∧
    Channel.value Channel.MAIN_VOLTAGE = "mv" ∧
    Channel.value Channel.MAIN_ENERGY = "me" ∧
    Channel.value Channel.ADC_CURRENT = "ac" ∧
    Channel.value Channel.ADC_VOLTAGE = "av" ∧
    Channel.value Channel.ADC_ENERGY = "ae" ∧
    Channel.value Channel.SENSE_MINUS_VOLTAGE = "sn" ∧
    Channel.value Channel.SENSE_PLUS_VOLTAGE = "sp" ∧
    Channel.value Channel.VBUS = "vb" ∧
    Channel.value Channel.TEMPERATURE = "tp" ∧
    Channel.value Channel.UART_LOGS = "rx" ∧
    Channel.value Channel.GPI_1 = "i1" ∧
    Channel.value Channel.GPI_2 = "i2" ∧
    ∀ c : Channel,
      c ∈ [Channel.MAIN_CURRENT, Channel.MAIN_VOLTAGE, Channel.MAIN_ENERGY,
        Channel.ADC_CURRENT, Channel.ADC_VOLTAGE, Channel.ADC_ENERGY,
        Channel.SENSE_MINUS_VOLTAGE, Channel.SENSE_PLUS_VOLTAGE, Channel.VBUS,
        Channel.TEMPERATURE, Channel.UART_LOGS, Channel.GPI_1,
        Channel.GPI_2] := by
  refine ⟨rfl, rfl, rfl, rfl, rfl, rfl, rfl, rfl, rfl, rfl, rfl, rfl, rfl,
    ?_⟩
  intro c
  cases c <;> simp

/-- C6: every request sent by a public operation is the envelope with `type`
equal to `"request"`, the command name under `cmd`, and a `data` mapping that
contains the handle's device identifier under the key `device_id`. -/
theorem request_envelope_shape (self : Arc) (op : Op) (c : CallRec)
    (hc : c ∈ (self.run op).1.2) :
    ∃ cmd d, c.request =
        PyVal.dict
          [("type", PyVal.str "request"), ("cmd", PyVal.str cmd),
           ("data", PyVal.dict d)] ∧
      lookupKey d "device_id" = some self.id := by
  cases op <;>
    first
      | exact absurd hc (List.not_mem_nil c)
      | (obtain rfl := List.mem_singleton.mp hc
         exact ⟨_, _, rfl, lookupKey_head⟩)

/-- Witness for `request_envelope_shape` at a concrete `commit` call. -/
theorem request_envelope_shape_witness :
    ∃ cmd d, (CallRec.mk
        (mkRequest "arc_commit" [("device_id", PyVal.str "uid-1")])
        Option.none).request =
        PyVal.dict
          [("type", PyVal.str "request"), ("cmd", PyVal.str cmd),
           ("data", PyVal.dict d)] ∧
      lookupKey d "device_id" = some arcSample.id :=
  request_envelope_shape arcSample Op.commit
    ⟨mkRequest "arc_commit" [("device_id", PyVal.str "uid-1")], Option.none⟩
    (List.mem_singleton.mpr rfl)

/-- C7 (code bug): every public operation invokes `send_and_receive` exactly
once with the documented timeout — the connection default everywhere except
`calibrate` (10), `firmware_upgrade` (15) and `wait_for_battery_data`
(60 plus the millisecond timeout divided by 1000) — except
`set_channel_samplerate`, which raises `AttributeError` before sending and
so invokes it zero times rather than once. -/
theorem send_invocation_counts_and_timeouts :
    (∀ (self : Arc) (op : Op),
      (self.run op).1.2.map CallRec.timeout = op.wireTimeouts) ∧
    (arcSample.run
        (Op.set_channel_samplerate Channel.ADC_CURRENT 50000)).1.2 = [] ∧
    (arcSample.run
        (Op.set_channel_samplerate Channel.ADC_CURRENT 50000)).1.1 =
      Except.error (PyExc.attributeError "value") := by
  refine ⟨fun self op => ?_, rfl, rfl⟩
  cases op <;> rfl

/-- C8: the bounded setters `set_adc_resistor`, `set_exp_voltage` and
`set_max_current` forward every value — in range or not — unchanged under
`"value"` in the request's data mapping, and perform no local validation:
given any success response the call returns normally, so only an error
response from the server can reject an out-of-range value. -/
theorem range_setters_forward_unvalidated (self : Arc) (v : Rat) :
    (self.run (Op.set_adc_resistor v)).1.2 =
      [⟨mkRequest "arc_set_adc_resistor"
          [("device_id", self.id), ("value", PyVal.float v)],
        Option.none⟩] ∧
    (self.run (Op.set_exp_voltage v)).1.2 =
      [⟨mkRequest "arc_set_exp_voltage"
          [("device_id", self.id), ("value", PyVal.float v)],
        Option.none⟩] ∧
    (self.run (Op.set_max_current v)).1.2 =
      [⟨mkRequest "arc_set_max_current"
          [("device_id", self.id), ("value", PyVal.float v)],
        Option.none⟩] ∧
    (∀ op, (op = Op.set_adc_resistor v ∨ op = Op.set_exp_voltage v ∨
        op = Op.set_max_current v) →
      ∀ c ∈ (self.run op).1.2, ∀ tv,
        (self.connection c.request c.timeout).subscript "type" =
          Except.ok tv →
        tv.eqStr "error" = false →
        (self.run op).1.1 = Except.ok PyVal.none) := by
  refine ⟨rfl, rfl, rfl, ?_⟩
  rintro op (rfl | rfl | rfl) c hc tv htv hne <;>
    (obtain rfl := List.mem_singleton.mp hc
     exact (dispatch_success _ _ _ htv hne).trans rfl)

/-- Witness for `range_setters_forward_unvalidated` at the out-of-range
value 100 (documented bound for `set_max_current` is 0.001-5 A): the value is
forwarded unchanged and the call succeeds locally. -/
theorem range_setters_forward_unvalidated_witness :
    (arcSample.run (Op.set_max_current 100)).1.2 =
      [⟨mkRequest "arc_set_max_current"
          [("device_id", PyVal.str "uid-1"), ("value", PyVal.float 100)],
        Option.none⟩] ∧
    (arcSample.run (Op.set_max_current 100)).1.1 = Except.ok PyVal.none :=
  ⟨(range_setters_forward_unvalidated arcSample 100).2.2.1,
   (range_setters_forward_unvalidated arcSample 100).2.2.2
     (Op.set_max_current 100) (Or.inr (Or.inr rfl))
     ⟨mkRequest "arc_set_max_current"
        [("device_id", PyVal.str "uid-1"), ("value", PyVal.float 100)],
      Option.none⟩ (List.mem_singleton.mpr rfl) (PyVal.str "response") rfl
     rfl⟩

/-- C9: no public operation modifies the handle's fields — the post-state
handle equals the pre-state handle, every request carries the handle's
device identifier — and construction stores exactly the device dictionary's
`type`, `device_id` and `name` entries and the supplied connection. -/
theorem handle_fields_immutable (self : Arc) (op : Op) :
    ((self.run op).2 = self ∧
      ∀ c ∈ (self.run op).1.2,
        lookupKey (requestData c.request) "device_id" = some self.id) ∧
    ∀ (dd : PyVal) (conn : Conn) (a : Arc),
      Arc.init dd conn = Except.ok a →
      dd.subscript "type" = Except.ok a.type ∧
      dd.subscript "device_id" = Except.ok a.id ∧
      dd.subscript "name" = Except.ok a.name ∧ a.connection = conn := by
  refine ⟨⟨?_, ?_⟩, ?_⟩
  · cases op <;> rfl
  · intro c hc
    cases op <;>
      first
        | exact absurd hc (List.not_mem_nil c)
        | (obtain rfl := List.mem_singleton.mp hc
           exact lookupKey_head)
  · intro dd conn a h
    cases h1 : dd.subscript "type" with
    | error e =>
        have hinit : Arc.init dd conn = Except.error e := by
          unfold Arc.init
          rw [h1]
        rw [hinit] at h
        exact absurd h (by simp)
    | ok t =>
        cases h2 : dd.subscript "device_id" with
        | error e =>
            have hinit : Arc.init dd conn = Except.error e := by
              unfold Arc.init
              rw [h1, h2]
            rw [hinit] at h
            exact absurd h (by simp)
        | ok i =>
            cases h3 : dd.subscript "name" with
            | error e =>
                have hinit : Arc.init dd conn = Except.error e := by
                  unfold Arc.init
                  rw [h1, h2, h3]
                rw [hinit] at h
                exact absurd h (by simp)
            | ok n =>
                have hinit : Arc.init dd conn =
                    Except.ok (Arc.mk t i n conn) := by
                  unfold Arc.init
                  rw [h1, h2, h3]
                rw [hinit] at h
                obtain rfl := Except.ok.inj h
                exact ⟨rfl, rfl, rfl, rfl⟩

/-- Witness for `handle_fields_immutable` at a concrete `calibrate` call and
a concrete construction. -/
theorem handle_fields_immutable_witness :
    (arcSample.run Op.calibrate).2 = arcSample ∧
    lookupKey
      (requestData
        (mkRequest "arc_calibrate" [("device_id", PyVal.str "uid-1")]))
      "device_id" = some arcSample.id ∧
    (devDict.subscript "type" = Except.ok arcInit.type ∧
      devDict.subscript "device_id" = Except.ok arcInit.id ∧
      devDict.subscript "name" = Except.ok arcInit.name ∧
      arcInit.connection = connOkEmpty) :=
  ⟨(handle_fields_immutable arcSample Op.calibrate).1.1,
   (handle_fields_immutable arcSample Op.calibrate).1.2
     ⟨mkRequest "arc_calibrate" [("device_id", PyVal.str "uid-1")], some 10⟩
     (List.mem_singleton.mpr rfl),
   (handle_fields_immutable arcSample Op.calibrate).2 devDict connOkEmpty
     arcInit rfl⟩

/-- C10: `get_property` returns `None` when a success response's `data`
payload lacks the `value` key, whereas every keyed getter (those with an
`Op.docKey`, such as `get_gpi` and `get_value`) raises `KeyError` on its
documented key when that key is absent from the `data` payload. -/
theorem get_property_defaults_missing_value (self : Arc) :
    (∀ (name : String) (c : CallRec) (d : List (String × PyVal))
        (tv : PyVal),
      c ∈ (self.run (Op.get_property name)).1.2 →
      (self.connection c.request c.timeout).subscript "type" =
        Except.ok tv →
      tv.eqStr "error" = false →
      (self.connection c.request c.timeout).subscript "data" =
        Except.ok (PyVal.dict d) →
      lookupKey d "value" = Option.none →
      (self.run (Op.get_property name)).1.1 = Except.ok PyVal.none) ∧
    (∀ (op : Op) (key : String) (c : CallRec) (d : List (String × PyVal))
        (tv : PyVal),
      op.docKey = some key →
      c ∈ (self.run op).1.2 →
      (self.connection c.request c.timeout).subscript "type" =
        Except.ok tv →
      tv.eqStr "error" = false →
      (self.connection c.request c.timeout).subscript "data" =
        Except.ok (PyVal.dict d) →
      lookupKey d key = Option.none →
      (self.run op).1.1 = Except.error (PyExc.keyError key)) := by
  constructor
  · intro name c d tv hc htv hne hdata hmiss
    obtain rfl := List.mem_singleton.mp hc
    exact dispatch_get_missing_key "value" _ tv d htv hne hdata hmiss
  · intro op key c d tv hk hc htv hne hdata hmiss
    cases op <;>
      first
        | (obtain rfl := Option.some.inj hk
           obtain rfl := List.mem_singleton.mp hc
           exact dispatch_missing_key _ _ tv d htv hne hdata hmiss)
        | simp [Op.docKey] at hk

/-- Witness for `get_property_defaults_missing_value`: with an empty `data`
payload, `get_property` returns `None` while `get_gpi` raises `KeyError`. -/
theorem get_property_defaults_missing_value_witness :
    (arcSample.run (Op.get_property "p")).1.1 = Except.ok PyVal.none ∧
    (arcSample.run (Op.get_gpi 1)).1.1 =
      Except.error (PyExc.keyError "value") :=
  ⟨(get_property_defaults_missing_value arcSample).1 "p"
     ⟨mkRequest "arc_get_property"
        [("device_id", PyVal.str "uid-1"), ("name", PyVal.str "p")],
      Option.none⟩ [] (PyVal.str "response") (List.mem_singleton.mpr rfl)
     rfl rfl rfl rfl,
   (get_property_defaults_missing_value arcSample).2 (Op.get_gpi 1) "value"
     ⟨mkRequest "arc_get_gpi"
        [("device_id", PyVal.str "uid-1"), ("pin", PyVal.int 1)],
      Option.none⟩ [] (PyVal.str "response") rfl
     (List.mem_singleton.mpr rfl) rfl rfl rfl rfl⟩
